import Mathlib

set_option maxRecDepth 20000

/-!
Shallow embedding of the `go-o11y` repository: the deterministic trace
sampler (`src/o11y/otel/sampler.go`) and the tracing facade (`src/o11y.go`).

Machine integers are modelled as `Nat` with explicit truncation `% 2^32`
where Go converts to `uint32`; the Go runtime panic on integer division by
zero is modelled by `Option` (`none` = panic).
-/

namespace O11y

/-- Go `any` values as they occur as span-attribute values
(`attr.Value.AsInterface()`): an opaque scalar universe rich enough to
distinguish values. -/
inductive GoAny where
  | str : String → GoAny
  | int : Int → GoAny
  | boolean : Bool → GoAny
deriving DecidableEq, Repr

/-! ### CRC32 (IEEE polynomial), `hash/crc32.ChecksumIEEE`

Reflected CRC-32 with polynomial `0xEDB88320`, initial register
`0xFFFFFFFF`, final xor `0xFFFFFFFF`, processed bit-by-bit over the UTF-8
bytes of the input string (Go's `[]byte(determinant)`). -/

/-- The reflected IEEE polynomial used by `hash/crc32`. -/
def crc32Poly : Nat := 0xEDB88320

/-- One bit step of the reflected CRC-32 register update. -/
def crc32BitStep (c : Nat) : Nat :=
  if c % 2 = 1 then (c / 2) ^^^ crc32Poly else c / 2

/-- Iterate the bit step. -/
def crc32Bits : Nat → Nat → Nat
  | 0, c => c
  | n + 1, c => crc32Bits n (crc32BitStep c)

/-- Absorb one byte into the CRC-32 register. -/
def crc32ByteStep (c b : Nat) : Nat :=
  crc32Bits 8 (c ^^^ (b % 256))

/-- UTF-8 encoding of a Unicode code point, as byte values. -/
def utf8Bytes (n : Nat) : List Nat :=
  if n < 0x80 then [n]
  else if n < 0x800 then
    [0xC0 ||| (n >>> 6), 0x80 ||| (n &&& 0x3F)]
  else if n < 0x10000 then
    [0xE0 ||| (n >>> 12), 0x80 ||| ((n >>> 6) &&& 0x3F), 0x80 ||| (n &&& 0x3F)]
  else
    [0xF0 ||| (n >>> 18), 0x80 ||| ((n >>> 12) &&& 0x3F),
     0x80 ||| ((n >>> 6) &&& 0x3F), 0x80 ||| (n &&& 0x3F)]

/-- The UTF-8 bytes of a string, Go's `[]byte(s)`. -/
def stringBytes (s : String) : List Nat :=
  (s.data.map (fun c => utf8Bytes c.toNat)).flatten

namespace crc32

/-- Embeds Go's `crc32.ChecksumIEEE([]byte(s))`. -/
def ChecksumIEEE (s : String) : Nat :=
  ((stringBytes s).foldl crc32ByteStep 0xFFFFFFFF) ^^^ 0xFFFFFFFF

end crc32

/-! ### The deterministic sampler, `src/o11y/otel/sampler.go` -/

/-- Go's `math.MaxUint32` = `2^32 - 1`. -/
def MaxUint32 : Nat := 4294967295

/-- Go's `uint32(n)` conversion from `uint`: truncation modulo `2^32`. -/
def toUInt32Nat (n : Nat) : Nat := n % 4294967296

/-- The threshold computed on line 37 of `sampler.go`:
`math.MaxUint32 / uint32(rate)` (defined when `uint32(rate) ≠ 0`). -/
def sampleThreshold (rate : Nat) : Nat := MaxUint32 / toUInt32Nat rate

/-- Embeds `shouldKeep(determinant string, rate uint) bool`.
`none` models the Go runtime panic "integer divide by zero" that the
threshold computation raises when `uint32(rate) = 0`. -/
def shouldKeep (determinant : String) (rate : Nat) : Option Bool :=
  if rate = 1 then
    some true
  else if toUInt32Nat rate = 0 then
    none
  else
    some (decide (crc32.ChecksumIEEE determinant < sampleThreshold rate))

/-- The everywhere-undefined fields mapping: the fresh empty
`map[string]any{}`. -/
def emptyFields : String → Option GoAny := fun _ => none

/-- Go map assignment `m[k] = v`: later writes overwrite earlier ones. -/
def insertField (m : String → Option GoAny) (k : String) (v : GoAny) :
    String → Option GoAny :=
  fun q => if q = k then some v else m q

/-- The read-only span view the sampler consumes
(`sdktrace.ReadOnlySpan`): its attribute list (unordered, keys need not be
unique), its display name, and its span ID already rendered as text
(`p.SpanContext().SpanID().String()`). -/
structure ReadOnlySpan where
  attributes : List (String × GoAny)
  name : String
  spanID : String

/-- The fields mapping built by `shouldSample`: every attribute inserted
in order, then the span's name stored under the reserved key "name". -/
def spanFields (p : ReadOnlySpan) : String → Option GoAny :=
  insertField
    (p.attributes.foldl (fun m kv => insertField m kv.1 kv.2) emptyFields)
    "name" (GoAny.str p.name)

/-- The sampler's configuration: `sampleKeyFunc` and the `sampleRates`
table (`map[string]uint`, `none` = key absent). -/
structure deterministicSampler where
  sampleKeyFunc : (String → Option GoAny) → String
  sampleRates : String → Option Nat

/-- The sample key `s.sampleKeyFunc(fields)` computed for a span. -/
def sampleKey (s : deterministicSampler) (p : ReadOnlySpan) : String :=
  s.sampleKeyFunc (spanFields p)

/-- Embeds `(s deterministicSampler) shouldSample(p) (bool, uint)`.
`none` propagates the division-by-zero panic from `shouldKeep`. -/
def shouldSample (s : deterministicSampler) (p : ReadOnlySpan) :
    Option (Bool × Nat) :=
  match s.sampleRates (sampleKey s p) with
  | none => some (true, 1)
  | some rate => (shouldKeep p.spanID rate).map (fun b => (b, rate))

/-! ### Heap model for the frame property

In Go, `fields` is a freshly allocated `map[string]any` and
`s.sampleRates` is a reference to a shared `map[string]uint`.  To state
that `shouldSample` never writes to the shared configuration, we replay
its body over an explicit heap of map objects: each `map[string]any`
write goes through the heap, and the rate table is read through a
reference. -/

/-- The heap: all `map[string]any` objects and all `map[string]uint`
objects, addressed by index. -/
structure Heap where
  anyMaps : List (String → Option GoAny)
  rateMaps : List (String → Option Nat)

/-- Dereference a `map[string]any`. -/
def readAnyMap (h : Heap) (r : Nat) : String → Option GoAny :=
  h.anyMaps.getD r emptyFields

/-- Dereference a `map[string]uint`. -/
def readRateMap (h : Heap) (r : Nat) : String → Option Nat :=
  h.rateMaps.getD r (fun _ => none)

/-- Allocate a fresh empty `map[string]any{}`; returns its reference. -/
def allocAnyMap (h : Heap) : Nat × Heap :=
  (h.anyMaps.length, { h with anyMaps := h.anyMaps ++ [emptyFields] })

/-- The map write `m[k] = v` performed through the heap. -/
def writeAnyMap (h : Heap) (r : Nat) (k : String) (v : GoAny) : Heap :=
  { h with anyMaps := h.anyMaps.set r (insertField (readAnyMap h r) k v) }

/-- The sampler's configuration with its rate table held by reference,
as the Go struct holds a `map[string]uint`. -/
structure deterministicSamplerRef where
  sampleKeyFunc : (String → Option GoAny) → String
  ratesRef : Nat

/-- Replay of `shouldSample` line by line over the heap: allocate the
fresh `fields` map, write every attribute, write the name, compute the
key, read the rate table, and decide. -/
def shouldSampleH (h : Heap) (s : deterministicSamplerRef)
    (p : ReadOnlySpan) : Option (Bool × Nat) × Heap :=
  let a := allocAnyMap h
  let fref := a.1
  let h1 := p.attributes.foldl (fun hh kv => writeAnyMap hh fref kv.1 kv.2) a.2
  let h2 := writeAnyMap h1 fref "name" (GoAny.str p.name)
  let key := s.sampleKeyFunc (readAnyMap h2 fref)
  (match readRateMap h2 s.ratesRef key with
   | none => some (true, 1)
   | some rate => (shouldKeep p.spanID rate).map (fun b => (b, rate)),
   h2)

/-! ### The tracing facade, `src/o11y.go`

Go's `Provider` is an interface; the repository defines one
implementation, `noopProvider`.  Other implementations live outside the
repository, so a provider value is a tag, and an environment assigns
behaviour to the
foreign tags.  Facade operations return the telemetry events they emit;
the no-op provider emits none. -/

/-- A telemetry event emitted by a provider operation. -/
structure Event where
  what : String
  payload : List (String × GoAny)
deriving DecidableEq, Repr

/-- A provider value: the package's `noopProvider`, or some provider
implemented outside the repository. -/
inductive ProviderTag where
  | noop
  | foreign (id : Nat)
deriving DecidableEq, Repr

/-- Keys of Go context values.  The package's unexported `providerKey{}`
is distinct from every key another package could use. -/
inductive CtxKey where
  | providerKey
  | other (id : Nat)
deriving DecidableEq, Repr

/-- Values stored in a Go context: a `Provider` (stored by
`WithProvider`), or some value of another type. -/
inductive CtxVal where
  | provider (t : ProviderTag)
  | otherVal (id : Nat)
deriving DecidableEq, Repr

/-- A Go `context.Context`: the background context, or a parent
extended with one key/value pair (`context.WithValue`). -/
inductive Context where
  | background
  | withValue (parent : Context) (key : CtxKey) (val : CtxVal)
deriving DecidableEq, Repr

/-- Embeds `ctx.Value(key)`: the innermost value stored for the key. -/
def Context.lookupValue : Context → CtxKey → Option CtxVal
  | .background, _ => none
  | .withValue parent k v, key =>
      if key = k then some v else parent.lookupValue key

/-- Embeds `WithProvider(ctx, p)`. -/
def WithProvider (ctx : Context) (p : ProviderTag) : Context :=
  Context.withValue ctx CtxKey.providerKey (CtxVal.provider p)

/-- The package-level `defaultProvider = &noopProvider{}`. -/
def defaultProvider : ProviderTag := ProviderTag.noop

/-- Embeds `FromContext(ctx)`: the type assertion
`ctx.Value(providerKey{}).(Provider)` fails both when nothing is stored
and when a non-`Provider` value is stored, falling back to
`defaultProvider`. -/
def FromContext (ctx : Context) : ProviderTag :=
  match ctx.lookupValue CtxKey.providerKey with
  | some (CtxVal.provider p) => p
  | _ => defaultProvider

/-- The behaviour of a span object: each method returns the events it
emits. -/
structure SpanBehavior where
  addFieldEv : String → GoAny → List Event
  endEv : List Event

/-- The behaviour of a provider implementation: each method returns the
resulting context / span together with the events it emits. -/
structure ProviderBehavior where
  startSpan : Context → String → (Context × SpanBehavior) × List Event
  addField : Context → String → GoAny → List Event
  addFieldToTrace : Context → String → GoAny → List Event
  logEvent : Context → String → List (String × GoAny) → List Event

/-- Embeds `noopSpan`: `AddField` and `End` do nothing. -/
def noopSpan : SpanBehavior :=
  { addFieldEv := fun _ _ => [], endEv := [] }

/-- Embeds `noopProvider`: every method does nothing, and `StartSpan`
returns the given context unchanged with a `noopSpan`. -/
def noopProvider : ProviderBehavior :=
  { startSpan := fun ctx _ => ((ctx, noopSpan), [])
    addField := fun _ _ _ => []
    addFieldToTrace := fun _ _ _ => []
    logEvent := fun _ _ _ => [] }

/-- An environment giving behaviour to providers implemented outside the
repository. -/
def ProviderEnv : Type := Nat → ProviderBehavior

/-- Dispatch a provider tag to its behaviour. -/
def providerImpl (env : ProviderEnv) : ProviderTag → ProviderBehavior
  | .noop => noopProvider
  | .foreign i => env i

/-- Embeds the package-level `StartSpan(ctx, name)` =
`FromContext(ctx).StartSpan(ctx, name)`. -/
def StartSpan (env : ProviderEnv) (ctx : Context) (name : String) :
    (Context × SpanBehavior) × List Event :=
  (providerImpl env (FromContext ctx)).startSpan ctx name

/-- Embeds the package-level `AddField(ctx, key, val)`. -/
def AddField (env : ProviderEnv) (ctx : Context) (key : String)
    (val : GoAny) : List Event :=
  (providerImpl env (FromContext ctx)).addField ctx key val

/-- Embeds the package-level `AddFieldToTrace(ctx, key, val)`. -/
def AddFieldToTrace (env : ProviderEnv) (ctx : Context) (key : String)
    (val : GoAny) : List Event :=
  (providerImpl env (FromContext ctx)).addFieldToTrace ctx key val

/-- Embeds `FromContext(ctx).Log(ctx, name, fields...)`, the facade's logging
path through the provider stored in the context. -/
def LogViaContext (env : ProviderEnv) (ctx : Context) (name : String)
    (fields : List (String × GoAny)) : List Event :=
  (providerImpl env (FromContext ctx)).logEvent ctx name fields

/-! ## Helper lemmas -/

/-- For a rate in `[2, 2^32)` the `uint32` cast is value-preserving and
`shouldKeep` compares the CRC32 of the determinant against
`MaxUint32 / rate`. -/
theorem shouldKeep_of_ge_two (d : String) (r : Nat) (h2 : 2 ≤ r)
    (hlt : r < 4294967296) :
    shouldKeep d r = some (decide (crc32.ChecksumIEEE d < MaxUint32 / r)) := by
  have h0 : toUInt32Nat r = r := Nat.mod_eq_of_lt hlt
  unfold shouldKeep sampleThreshold
  rw [h0, if_neg (by omega : ¬ r = 1), if_neg (by omega : ¬ r = 0)]

/-- Folding map writes over keys not containing `k` leaves the entry at
`k` unchanged. -/
theorem foldl_insertField_not_mem (attrs : List (String × GoAny))
    (m : String → Option GoAny) (k : String)
    (h : k ∉ attrs.map Prod.fst) :
    attrs.foldl (fun mm kv => insertField mm kv.1 kv.2) m k = m k := by
  induction attrs generalizing m with
  | nil => rfl
  | cons kv rest ih =>
      simp only [List.map_cons, List.mem_cons, not_or] at h
      rw [List.foldl_cons, ih _ h.2]
      simp [insertField, h.1]

/-- With pairwise distinct keys, the folded map holds each attribute's
value at its key. -/
theorem foldl_insertField_mem (attrs : List (String × GoAny))
    (m : String → Option GoAny) (k : String) (v : GoAny)
    (hnd : (attrs.map Prod.fst).Nodup) (hmem : (k, v) ∈ attrs) :
    attrs.foldl (fun mm kv => insertField mm kv.1 kv.2) m k = some v := by
  induction attrs generalizing m with
  | nil => cases hmem
  | cons kv rest ih =>
      simp only [List.map_cons, List.nodup_cons] at hnd
      rcases List.mem_cons.mp hmem with heq | hmem'
      · cases heq
        rw [List.foldl_cons, foldl_insertField_not_mem _ _ _ hnd.1]
        simp [insertField]
      · rw [List.foldl_cons]
        exact ih _ hnd.2 hmem'

/-! ## Claims -/

/-- C1: for a span whose sample key maps to a rate `r` with
`2 ≤ r < 2^32`, `decide` returns
`(CRC32-IEEE(spanID) < floor(MaxUint32 / r), r)`, the determinant being
the span's ID rendered as a string. -/
theorem shouldSample_hashed_decision (s : deterministicSampler)
    (p : ReadOnlySpan) (r : Nat)
    (hr : s.sampleRates (sampleKey s p) = some r) (h2 : 2 ≤ r)
    (hlt : r < 4294967296) :
    shouldSample s p =
      some (decide (crc32.ChecksumIEEE p.spanID < MaxUint32 / r), r) := by
  unfold shouldSample
  rw [hr]
  show (shouldKeep p.spanID r).map (fun b => (b, r)) = _
  rw [shouldKeep_of_ge_two p.spanID r h2 hlt]
  rfl

/-- Concrete sampler for the C1 witness: key function reads the "name"
field, table maps "checkout" to rate 10. -/
def checkoutSampler : deterministicSampler :=
  { sampleKeyFunc := fun f =>
      match f "name" with
      | some (GoAny.str s) => s
      | _ => ""
    sampleRates := fun k => if k = "checkout" then some 10 else none }

/-- Concrete span for the C1 witness. -/
def checkoutSpan : ReadOnlySpan :=
  { attributes := [], name := "checkout", spanID := "abc123" }

/-- C1 witness: the checkout sampler at rate 10 on span ID "abc123". -/
theorem shouldSample_hashed_decision_witness :
    (checkoutSampler.sampleRates (sampleKey checkoutSampler checkoutSpan) =
        some 10 ∧ 2 ≤ 10 ∧ 10 < 4294967296) ∧
    shouldSample checkoutSampler checkoutSpan =
      some (decide (crc32.ChecksumIEEE "abc123" < MaxUint32 / 10), 10) :=
  ⟨⟨by decide, by decide, by decide⟩,
   shouldSample_hashed_decision checkoutSampler checkoutSpan 10 (by decide)
     (by decide) (by decide)⟩

/-- C2: the sampling decision is a pure function of the sample key, the
rate found for it, and the determinant: two invocations agreeing on
those return identical `(keep, rateUsed)` pairs. -/
theorem decide_deterministic (s₁ s₂ : deterministicSampler)
    (p₁ p₂ : ReadOnlySpan)
    (hkey : sampleKey s₁ p₁ = sampleKey s₂ p₂)
    (hrate : s₁.sampleRates (sampleKey s₁ p₁) =
      s₂.sampleRates (sampleKey s₂ p₂))
    (hdet : p₁.spanID = p₂.spanID) :
    shouldSample s₁ p₁ = shouldSample s₂ p₂ := by
  unfold shouldSample
  rw [hrate, hdet]

/-- Concrete sampler for the C2 witness. -/
def repeatSampler : deterministicSampler :=
  { sampleKeyFunc := fun _ => "k"
    sampleRates := fun k => if k = "k" then some 5 else none }

/-- Concrete span for the C2 witness. -/
def repeatSpan : ReadOnlySpan :=
  { attributes := [("a", GoAny.int 1)], name := "n", spanID := "span01" }

/-- C2 witness: two identical invocations agree. -/
theorem decide_deterministic_witness :
    (sampleKey repeatSampler repeatSpan = sampleKey repeatSampler repeatSpan ∧
     repeatSampler.sampleRates (sampleKey repeatSampler repeatSpan) =
       repeatSampler.sampleRates (sampleKey repeatSampler repeatSpan) ∧
     repeatSpan.spanID = repeatSpan.spanID) ∧
    shouldSample repeatSampler repeatSpan =
      shouldSample repeatSampler repeatSpan :=
  ⟨⟨rfl, rfl, rfl⟩,
   decide_deterministic repeatSampler repeatSampler repeatSpan repeatSpan
     rfl rfl rfl⟩

/-- C3: a sample key absent from the table, or mapped to rate 1, makes
`decide` return exactly `(true, 1)` regardless of the span's ID. -/
theorem shouldSample_rate_one_or_absent (s : deterministicSampler)
    (p : ReadOnlySpan)
    (h : s.sampleRates (sampleKey s p) = none ∨
      s.sampleRates (sampleKey s p) = some 1) :
    shouldSample s p = some (true, 1) := by
  rcases h with h | h
  · unfold shouldSample
    rw [h]
  · unfold shouldSample
    rw [h]
    simp [shouldKeep]

/-- Concrete sampler with an empty rate table for the C3 witness. -/
def emptyTableSampler : deterministicSampler :=
  { sampleKeyFunc := fun _ => "whatever", sampleRates := fun _ => none }

/-- Concrete span for the C3 witness. -/
def unsampledSpan : ReadOnlySpan :=
  { attributes := [], name := "n", spanID := "feedface" }

/-- C3 witness: an absent key yields `(true, 1)`. -/
theorem shouldSample_rate_one_or_absent_witness :
    (emptyTableSampler.sampleRates
        (sampleKey emptyTableSampler unsampledSpan) = none ∨
     emptyTableSampler.sampleRates
        (sampleKey emptyTableSampler unsampledSpan) = some 1) ∧
    shouldSample emptyTableSampler unsampledSpan = some (true, 1) :=
  ⟨Or.inl rfl,
   shouldSample_rate_one_or_absent emptyTableSampler unsampledSpan
     (Or.inl rfl)⟩

/-- Concrete sampler whose table stores rate 0, for the C4
counterexample. -/
def rateZeroSampler : deterministicSampler :=
  { sampleKeyFunc := fun _ => "zero"
    sampleRates := fun k => if k = "zero" then some 0 else none }

/-- Concrete span hitting the rate-0 entry. -/
def rateZeroSpan : ReadOnlySpan :=
  { attributes := [], name := "n", spanID := "abc123" }

/-- C4 counterexample: with rate 0 configured, the threshold computation
`math.MaxUint32 / uint32(rate)` divides by zero, so the evaluation
panics (`none`) instead of yielding a `(keep, rateUsed)` decision. -/
theorem shouldSample_rate_zero_panics :
    shouldSample rateZeroSampler rateZeroSpan = none := by decide

/-- C4 amended: `decide` yields a well-defined decision whenever every
rate the lookup can return has a nonzero `uint32` truncation; a rate of
0 (or any multiple of `2^32`) panics. -/
theorem shouldSample_no_panic (s : deterministicSampler) (p : ReadOnlySpan)
    (h : ∀ r, s.sampleRates (sampleKey s p) = some r → toUInt32Nat r ≠ 0) :
    (shouldSample s p).isSome = true := by
  unfold shouldSample
  cases hr : s.sampleRates (sampleKey s p) with
  | none => rfl
  | some r =>
      have hnz := h r hr
      unfold shouldKeep
      by_cases h1 : r = 1
      · simp [h1]
      · simp [h1, hnz]

/-- Concrete sampler with a benign rate, for the C4 witness. -/
def rateSevenSampler : deterministicSampler :=
  { sampleKeyFunc := fun _ => "k"
    sampleRates := fun k => if k = "k" then some 7 else none }

/-- Concrete span for the C4 witness. -/
def rateSevenSpan : ReadOnlySpan :=
  { attributes := [], name := "n", spanID := "abc123" }

/-- C4 witness: rate 7 yields a decision. -/
theorem shouldSample_no_panic_witness :
    (∀ r, rateSevenSampler.sampleRates
        (sampleKey rateSevenSampler rateSevenSpan) = some r →
        toUInt32Nat r ≠ 0) ∧
    (shouldSample rateSevenSampler rateSevenSpan).isSome = true :=
  ⟨fun r hr => by
      have h7 : some 7 = some r := hr
      cases h7
      decide,
   shouldSample_no_panic rateSevenSampler rateSevenSpan
     (fun r hr => by
        have h7 : some 7 = some r := hr
        cases h7
        decide)⟩

/-- C5 counterexample: at rate `MaxUint32 = 2^32 - 1` the threshold is
`1`, and the empty determinant's CRC32 is `0 < 1`, so the span is kept
— the code does not treat rates `≥ MaxUint32` as "never keep". -/
theorem shouldKeep_maxuint32_keeps :
    shouldKeep "" 4294967295 = some true := by decide

/-- C5 amended: at rate `MaxUint32` the threshold is 1, so `shouldKeep`
keeps exactly the determinants whose CRC32-IEEE value is 0; rates are
truncated to `uint32` rather than clamped to "never keep". -/
theorem shouldKeep_at_maxuint32 (d : String) :
    shouldKeep d 4294967295 = some (decide (crc32.ChecksumIEEE d = 0)) := by
  unfold shouldKeep
  rw [if_neg (by omega : ¬ (4294967295 : Nat) = 1), if_neg (by decide)]
  have ht : sampleThreshold 4294967295 = 1 := by decide
  rw [ht]
  simp [Nat.lt_one_iff]

/-- A determinant whose CRC32-IEEE value is exactly `2^31 - 1`
(`0x7FFFFFFF`), sitting on the rate-2 threshold. -/
def boundaryDeterminant : String := "idaghDGNb"

/-- C6 counterexample: this determinant's CRC32 is below
`floor(2^32 / 2)`, so the claimed threshold would keep it, yet the code
drops it at rate 2 — the actual threshold is `floor(MaxUint32 / 2)`,
which is one less. -/
theorem shouldKeep_threshold_not_pow_div :
    crc32.ChecksumIEEE boundaryDeterminant < 2 ^ 32 / 2 ∧
    shouldKeep boundaryDeterminant 2 = some false := by decide

/-- C6 amended: for `2 ≤ r < 2^32` the threshold is
`floor(MaxUint32 / r)` (one less than `floor(2^32 / r)` when `r`
divides `2^32`), and the keep boundary is exclusive: a determinant whose
CRC32 equals the threshold is dropped. -/
theorem shouldKeep_threshold_exclusive (d : String) (r : Nat)
    (h2 : 2 ≤ r) (hlt : r < 4294967296) :
    shouldKeep d r = some (decide (crc32.ChecksumIEEE d < MaxUint32 / r)) ∧
    (crc32.ChecksumIEEE d = MaxUint32 / r →
      shouldKeep d r = some false) := by
  refine ⟨shouldKeep_of_ge_two d r h2 hlt, fun he => ?_⟩
  rw [shouldKeep_of_ge_two d r h2 hlt, he]
  simp

/-- C6 witness: the boundary determinant at rate 2 sits exactly on the
threshold and is dropped. -/
theorem shouldKeep_threshold_exclusive_witness :
    (2 ≤ 2 ∧ 2 < 4294967296 ∧
     crc32.ChecksumIEEE boundaryDeterminant = MaxUint32 / 2) ∧
    (shouldKeep boundaryDeterminant 2 =
        some (decide (crc32.ChecksumIEEE boundaryDeterminant < MaxUint32 / 2)) ∧
     (crc32.ChecksumIEEE boundaryDeterminant = MaxUint32 / 2 →
        shouldKeep boundaryDeterminant 2 = some false)) :=
  ⟨⟨by decide, by decide, by decide⟩,
   shouldKeep_threshold_exclusive boundaryDeterminant 2 (by decide)
     (by decide)⟩

/-- Concrete span carrying an attribute keyed "name", for the C7
counterexample. -/
def nameClashSpan : ReadOnlySpan :=
  { attributes := [("name", GoAny.str "fromattr")]
    name := "realname"
    spanID := "deadbeef" }

/-- C7 counterexample: the fields mapping does not contain an entry
holding the attribute value stored under "name" — the name injection
overwrites it, so there is not "one entry per span attribute". -/
theorem spanFields_name_attr_lost :
    spanFields nameClashSpan "name" ≠ some (GoAny.str "fromattr") := by
  decide

/-- C7 amended: for spans whose attribute keys are pairwise distinct and
do not include "name", the key passed to the rate-table lookup is
`sampleKeyFunc` applied to the mapping holding one entry per attribute
plus the span's name under "name"; an attribute keyed "name" (or an
earlier duplicate) is overwritten instead. -/
theorem sampleKey_fields_mapping (s : deterministicSampler)
    (p : ReadOnlySpan)
    (hnd : (p.attributes.map Prod.fst).Nodup)
    (hnm : "name" ∉ p.attributes.map Prod.fst) :
    sampleKey s p = s.sampleKeyFunc (spanFields p) ∧
    spanFields p "name" = some (GoAny.str p.name) ∧
    (∀ k v, (k, v) ∈ p.attributes → spanFields p k = some v) ∧
    (∀ k, k ≠ "name" → k ∉ p.attributes.map Prod.fst →
      spanFields p k = none) := by
  refine ⟨rfl, by simp [spanFields, insertField], ?_, ?_⟩
  · intro k v hm
    have hk : k ≠ "name" := fun h =>
      hnm (h ▸ List.mem_map.mpr ⟨(k, v), hm, rfl⟩)
    unfold spanFields insertField
    rw [if_neg hk]
    exact foldl_insertField_mem _ _ _ _ hnd hm
  · intro k hk hk'
    unfold spanFields insertField
    rw [if_neg hk]
    exact foldl_insertField_not_mem _ _ _ hk'

/-- Concrete sampler for the C7 witness. -/
def fieldsSampler : deterministicSampler :=
  { sampleKeyFunc := fun f =>
      match f "route" with
      | some (GoAny.str s) => s
      | _ => ""
    sampleRates := fun _ => none }

/-- Concrete span with a clean attribute list for the C7 witness. -/
def cleanSpan : ReadOnlySpan :=
  { attributes := [("route", GoAny.str "/help"), ("code", GoAny.int 200)]
    name := "GET /help"
    spanID := "0123456789abcdef" }

/-- C7 witness: distinct attribute keys, none equal to "name". -/
theorem sampleKey_fields_mapping_witness :
    ((cleanSpan.attributes.map Prod.fst).Nodup ∧
     "name" ∉ cleanSpan.attributes.map Prod.fst) ∧
    (sampleKey fieldsSampler cleanSpan =
        fieldsSampler.sampleKeyFunc (spanFields cleanSpan) ∧
     spanFields cleanSpan "name" = some (GoAny.str cleanSpan.name) ∧
     (∀ k v, (k, v) ∈ cleanSpan.attributes →
        spanFields cleanSpan k = some v) ∧
     (∀ k, k ≠ "name" → k ∉ cleanSpan.attributes.map Prod.fst →
        spanFields cleanSpan k = none)) :=
  ⟨⟨by decide, by decide⟩,
   sampleKey_fields_mapping fieldsSampler cleanSpan (by decide) (by decide)⟩

/-! ## C8: the frame property over the heap model -/

/-- A map write through the heap never touches the rate tables. -/
theorem writeAnyMap_rateMaps (h : Heap) (r : Nat) (k : String)
    (v : GoAny) : (writeAnyMap h r k v).rateMaps = h.rateMaps := rfl

/-- Folding attribute writes never touches the rate tables. -/
theorem foldl_writeAnyMap_rateMaps (attrs : List (String × GoAny))
    (h : Heap) (r : Nat) :
    (attrs.foldl (fun hh kv => writeAnyMap hh r kv.1 kv.2) h).rateMaps =
      h.rateMaps := by
  induction attrs generalizing h with
  | nil => rfl
  | cons kv rest ih => rw [List.foldl_cons, ih, writeAnyMap_rateMaps]

/-- A map write preserves how many map objects exist. -/
theorem writeAnyMap_length (h : Heap) (r : Nat) (k : String) (v : GoAny) :
    (writeAnyMap h r k v).anyMaps.length = h.anyMaps.length := by
  simp [writeAnyMap]

/-- Folding attribute writes preserves how many map objects exist. -/
theorem foldl_writeAnyMap_length (attrs : List (String × GoAny))
    (h : Heap) (r : Nat) :
    (attrs.foldl (fun hh kv => writeAnyMap hh r kv.1 kv.2) h).anyMaps.length =
      h.anyMaps.length := by
  induction attrs generalizing h with
  | nil => rfl
  | cons kv rest ih => rw [List.foldl_cons, ih, writeAnyMap_length]

/-- Reading back a valid reference after writing through it. -/
theorem readAnyMap_writeAnyMap_self (h : Heap) (r : Nat) (k : String)
    (v : GoAny) (hr : r < h.anyMaps.length) :
    readAnyMap (writeAnyMap h r k v) r = insertField (readAnyMap h r) k v := by
  unfold readAnyMap writeAnyMap
  simp [List.getD, List.getElem?_set_self, hr, readAnyMap]

/-- Replaying the attribute loop through the heap computes the same map
as the pure fold. -/
theorem readAnyMap_foldl_write (attrs : List (String × GoAny)) (h : Heap)
    (r : Nat) (hr : r < h.anyMaps.length) :
    readAnyMap (attrs.foldl (fun hh kv => writeAnyMap hh r kv.1 kv.2) h) r =
      attrs.foldl (fun mm kv => insertField mm kv.1 kv.2) (readAnyMap h r) := by
  induction attrs generalizing h with
  | nil => rfl
  | cons kv rest ih =>
      rw [List.foldl_cons, List.foldl_cons,
        ih _ (by rw [writeAnyMap_length]; exact hr),
        readAnyMap_writeAnyMap_self _ _ _ _ hr]

/-- A freshly allocated map is empty. -/
theorem readAnyMap_alloc (h : Heap) :
    readAnyMap (allocAnyMap h).2 (allocAnyMap h).1 = emptyFields := by
  unfold readAnyMap allocAnyMap
  simp [List.getD]

/-- C8: `shouldSample` replayed over the heap never writes to the
sampler's rate table — the rate-table objects after the call are the
ones before it — and its result is the pure `shouldSample` of the
configuration read before the call, so any number of calls observe the
same configuration. -/
theorem shouldSampleH_frame (h : Heap) (s : deterministicSamplerRef)
    (p : ReadOnlySpan) :
    (shouldSampleH h s p).2.rateMaps = h.rateMaps ∧
    (shouldSampleH h s p).1 =
      shouldSample ⟨s.sampleKeyFunc, readRateMap h s.ratesRef⟩ p := by
  have hlen : (allocAnyMap h).1 < (allocAnyMap h).2.anyMaps.length := by
    simp [allocAnyMap]
  have hrm :
      (writeAnyMap
        (p.attributes.foldl
          (fun hh kv => writeAnyMap hh (allocAnyMap h).1 kv.1 kv.2)
          (allocAnyMap h).2)
        (allocAnyMap h).1 "name" (GoAny.str p.name)).rateMaps =
      h.rateMaps := by
    rw [writeAnyMap_rateMaps, foldl_writeAnyMap_rateMaps]
    rfl
  have hfields :
      readAnyMap
        (writeAnyMap
          (p.attributes.foldl
            (fun hh kv => writeAnyMap hh (allocAnyMap h).1 kv.1 kv.2)
            (allocAnyMap h).2)
          (allocAnyMap h).1 "name" (GoAny.str p.name))
        (allocAnyMap h).1 = spanFields p := by
    rw [readAnyMap_writeAnyMap_self _ _ _ _
        (by rw [foldl_writeAnyMap_length]; exact hlen),
      readAnyMap_foldl_write _ _ _ hlen, readAnyMap_alloc]
    rfl
  have hrates :
      readRateMap
        (writeAnyMap
          (p.attributes.foldl
            (fun hh kv => writeAnyMap hh (allocAnyMap h).1 kv.1 kv.2)
            (allocAnyMap h).2)
          (allocAnyMap h).1 "name" (GoAny.str p.name)) s.ratesRef =
      readRateMap h s.ratesRef := by
    unfold readRateMap
    rw [hrm]
  constructor
  · simp only [shouldSampleH]
    exact hrm
  · simp only [shouldSampleH]
    rw [hfields, hrates]
    unfold shouldSample sampleKey
    rfl

/-! ## C9: the facade without a provider -/

/-- C9: when nothing stored under the provider key is a provider,
`FromContext` falls back to the process-wide no-op provider, so the
facade operations have no effect: `StartSpan` returns the context
unchanged with a span whose `AddField` and `End` do nothing, and
`AddField`, `AddFieldToTrace` and `Log` emit nothing. -/
theorem facade_noop_without_provider (env : ProviderEnv) (ctx : Context)
    (h : ∀ t, ctx.lookupValue CtxKey.providerKey ≠
      some (CtxVal.provider t)) :
    FromContext ctx = defaultProvider ∧
    (∀ name, StartSpan env ctx name = ((ctx, noopSpan), [])) ∧
    (∀ name, ∀ k v, (StartSpan env ctx name).1.2.addFieldEv k v = [] ∧
      (StartSpan env ctx name).1.2.endEv = []) ∧
    (∀ k v, AddField env ctx k v = []) ∧
    (∀ k v, AddFieldToTrace env ctx k v = []) ∧
    (∀ name fs, LogViaContext env ctx name fs = []) := by
  have hfc : FromContext ctx = defaultProvider := by
    unfold FromContext
    cases hl : ctx.lookupValue CtxKey.providerKey with
    | none => rfl
    | some val =>
        cases val with
        | provider t => exact absurd hl (h t)
        | otherVal i => rfl
  have hstart : ∀ name, StartSpan env ctx name = ((ctx, noopSpan), []) := by
    intro name
    unfold StartSpan
    rw [hfc]
    rfl
  refine ⟨hfc, hstart, ?_, ?_, ?_, ?_⟩
  · intro name k v
    rw [hstart name]
    exact ⟨rfl, rfl⟩
  · intro k v
    unfold AddField
    rw [hfc]
    rfl
  · intro k v
    unfold AddFieldToTrace
    rw [hfc]
    rfl
  · intro name fs
    unfold LogViaContext
    rw [hfc]
    rfl

/-- A context with unrelated values but no provider, for the C9
witness. -/
def bareContext : Context :=
  Context.withValue Context.background (CtxKey.other 3) (CtxVal.otherVal 9)

/-- No provider is stored in `bareContext`. -/
theorem bareContext_no_provider :
    ∀ t, bareContext.lookupValue CtxKey.providerKey ≠
      some (CtxVal.provider t) := by
  intro t hcontra
  have hnone : bareContext.lookupValue CtxKey.providerKey = none := by decide
  rw [hnone] at hcontra
  cases hcontra

/-- C9 witness: a provider-free context drives every facade operation to
the no-op provider. -/
theorem facade_noop_without_provider_witness :
    (∀ t, bareContext.lookupValue CtxKey.providerKey ≠
        some (CtxVal.provider t)) ∧
    (FromContext bareContext = defaultProvider ∧
     (∀ name, StartSpan (fun _ => noopProvider) bareContext name =
        ((bareContext, noopSpan), [])) ∧
     (∀ name, ∀ k v,
        (StartSpan (fun _ => noopProvider) bareContext name).1.2.addFieldEv
          k v = [] ∧
        (StartSpan (fun _ => noopProvider) bareContext name).1.2.endEv = []) ∧
     (∀ k v, AddField (fun _ => noopProvider) bareContext k v = []) ∧
     (∀ k v, AddFieldToTrace (fun _ => noopProvider) bareContext k v = []) ∧
     (∀ name fs,
        LogViaContext (fun _ => noopProvider) bareContext name fs = [])) :=
  ⟨bareContext_no_provider,
   facade_noop_without_provider (fun _ => noopProvider) bareContext
     bareContext_no_provider⟩

/-- Concrete span whose "name"-keyed attribute differs from its display
name, for the C10 witness. -/
def shadowedNameSpan : ReadOnlySpan :=
  { attributes := [("name", GoAny.boolean true), ("a", GoAny.int 2)]
    name := "display"
    spanID := "cafebabe" }

/-- C10: when the attributes contain an entry keyed "name", the fields
mapping the key function receives holds the span's display name there —
the attribute value is overwritten and never observed. -/
theorem spanFields_name_overwritten (p : ReadOnlySpan) (v : GoAny)
    (h : ("name", v) ∈ p.attributes) :
    spanFields p "name" = some (GoAny.str p.name) ∧
    ∀ s : deterministicSampler,
      sampleKey s p = s.sampleKeyFunc (spanFields p) :=
  ⟨by simp [spanFields, insertField], fun s => rfl⟩

/-- C10 witness: the boolean stored under "name" is never seen. -/
theorem spanFields_name_overwritten_witness :
    ("name", GoAny.boolean true) ∈ shadowedNameSpan.attributes ∧
    (spanFields shadowedNameSpan "name" =
        some (GoAny.str shadowedNameSpan.name) ∧
     ∀ s : deterministicSampler,
       sampleKey s shadowedNameSpan =
         s.sampleKeyFunc (spanFields shadowedNameSpan)) :=
  ⟨by decide,
   spanFields_name_overwritten shadowedNameSpan (GoAny.boolean true)
     (by decide)⟩

end O11y
